import Mathlib

/-!
Shallow embedding of the telegram_bot_service bot framework.

The embedding covers `src/tg_bot/bot.py` (class `TelegramBot`: configuration
validation, the command registry and help text, the authorization gate,
message dispatch, and the dual-mode delivery router) together with the
legacy variant `src/tg_bot.py` where a claim cites it.

Python exceptions are modelled as an `Option BotError` component of every
outcome, paired with the bot state as it stands when the exception leaves
the method (instance attributes survive a raise, so the state component is
meaningful in the error case too).  Transport calls (`reply_text`,
`bot.send_message`) are recorded in the state as `Delivery` values:
`delivered` holds calls already performed, `queue` holds jobs scheduled on
the application job queue (`job_queue.run_once`), which are flushed when the
standalone application is stopped.
-/

/-- An inbound Telegram update: the origin chat id (`update.message.chat_id`),
an event identifier for the message being replied to, and the message text. -/
structure Update where
  chat_id : Int
  eventId : Nat
  text : String
deriving DecidableEq, Repr

/-- The exceptions the embedded methods can raise. -/
inductive BotError where
  /-- `PermissionError` raised by `_authorized_check` (bot.py lines 199-202). -/
  | permissionError (chat_id : Int)
  /-- `Exception("Got an update but not running as deamon")` (bot.py line 242). -/
  | notDeamon
  /-- `NotImplementedError`, raised by default capability stubs. -/
  | notImplemented
  /-- Any other exception escaping a user-supplied handler. -/
  | handlerError
  /-- `AssertionError` with its message (legacy tg_bot.py line 98). -/
  | assertionError (msg : String)
deriving DecidableEq, Repr

/-- One transport call: either a direct reply to an inbound event
(`update.message.reply_text`) or a push to a chat id
(`context.bot.send_message(chat_id=..., text=...)`). -/
inductive Delivery where
  | reply (eventId : Nat) (text : String)
  | push (chat_id : Int) (text : String)
deriving DecidableEq, Repr

/-- The state of a `TelegramBot` instance (bot.py).  `chat_ids`,
`only_authorized`, `_deamon`, `_started` and `_lastupdate` are the
instance attributes of the same names; `queue`, `delivered`, `connOpen`,
`opens` and `closes` make the transport observable: `queue` is the content
of the application job queue, `delivered` the transport calls performed,
`connOpen` whether the standalone connection is live, and `opens`/`closes`
count `initialize`+`start` and `stop`+`shutdown` cycles. -/
structure BotState where
  chat_ids : List Int
  only_authorized : Bool
  _deamon : Bool
  _started : Bool
  _lastupdate : Option Update
  queue : List Delivery
  delivered : List Delivery
  connOpen : Bool
  opens : Nat
  closes : Nat
deriving DecidableEq, Repr

/-- Outcome of a method call: the instance state afterwards, and the
exception that escaped, if any. -/
abbrev Outcome := BotState × Option BotError

/-- A user-supplied handler body (`handle_update`, `handle_voice`, or a
registered command body): it acts on the bot instance and may raise. -/
abbrev Handler := BotState → Update → Outcome

/-- `TelegramBot._authorized_check` (bot.py lines 199-202): when
`only_authorized` is set and the origin chat id is not in `chat_ids`,
raise `PermissionError`; otherwise do nothing. -/
def authorized_check (s : BotState) (u : Update) : Option BotError :=
  if s.only_authorized then
    if u.chat_id ∈ s.chat_ids then none
    else some (BotError.permissionError u.chat_id)
  else none

/-- `TelegramBot._start_standalone` (bot.py lines 205-212): when not running
as daemon and not already started, rebuild the application (`_bot_init`,
which discards the old job queue), `initialize` and `start` it (opening the
connection) and set `_started`; otherwise do nothing. -/
def start_standalone (s : BotState) : BotState :=
  if s._deamon = false ∧ s._started = false then
    { s with queue := [], connOpen := true, opens := s.opens + 1, _started := true }
  else s

/-- `TelegramBot._stop_standalone` (bot.py lines 214-219): when `_started`,
`stop` and `shutdown` the application, which flushes the scheduled jobs and
closes the connection.  Note that `_started` is not reset. -/
def stop_standalone (s : BotState) : BotState :=
  if s._started = true then
    { s with delivered := s.delivered ++ s.queue, queue := [],
             connOpen := false, closes := s.closes + 1 }
  else s

/-- `TelegramBot.batch_send` (bot.py lines 221-227): delegates to
`_stop_standalone` so the queued messages get sent. -/
def batch_send (s : BotState) : BotState :=
  stop_standalone s

/-- `TelegramBot._send_message` (bot.py lines 235-256).  When `_lastupdate`
is set: raise unless running as daemon, else reply to that update.  When it
is not set: run `_start_standalone`, then schedule a job that pushes the
message to the explicit `chat_id` when one is given, and otherwise to every
id in `chat_ids`. -/
def send_message (s : BotState) (message : String) (chat_id : Option Int) : Outcome :=
  match s._lastupdate with
  | some u =>
    if s._deamon = false then (s, some BotError.notDeamon)
    else ({ s with delivered := s.delivered ++ [Delivery.reply u.eventId message] }, none)
  | none =>
    let s1 := start_standalone s
    let job := match chat_id with
      | none => s1.chat_ids.map (fun cid => Delivery.push cid message)
      | some cid => [Delivery.push cid message]
    ({ s1 with queue := s1.queue ++ job }, none)

/-- `TelegramBot._send_markdown` (bot.py lines 259-261): delegates to
`_send_message` with the same arguments. -/
def send_markdown (s : BotState) (message : String) (chat_id : Option Int) : Outcome :=
  send_message s message chat_id

/-- `TelegramBot._msghandle` (bot.py lines 164-170): run `_authorized_check`,
set `_lastupdate` to the update, run `handle_update`, then set `_lastupdate`
back to `None`.  There is no try/finally: when the handler raises, the
clearing assignment is never executed. -/
def msghandle (handler : Handler) (s : BotState) (u : Update) : Outcome :=
  match authorized_check s u with
  | some e => (s, some e)
  | none =>
    let s1 : BotState := { s with _lastupdate := some u }
    match handler s1 u with
    | (s2, none) => ({ s2 with _lastupdate := none }, none)
    | (s2, some e) => (s2, some e)

/-- The wrapper `msg` that `_bot_init` installs for every registered command
(bot.py lines 116-126): set `_lastupdate`, call the command body, clear
`_lastupdate`.  No `_authorized_check` is performed on this path, and again
there is no try/finally around the body. -/
def command_msg (handler : Handler) (s : BotState) (u : Update) : Outcome :=
  let s1 : BotState := { s with _lastupdate := some u }
  match handler s1 u with
  | (s2, none) => ({ s2 with _lastupdate := none }, none)
  | (s2, some e) => (s2, some e)

/-- `TelegramBot._voicehandle` (bot.py lines 172-181): run
`_authorized_check`, set `_lastupdate`, try `handle_voice` (replying
"This bot cannot process voice" on `NotImplementedError`), and in a
`finally` block call `handle_update`.  `_lastupdate` is never cleared on
this path; an exception from the `finally` call replaces the original. -/
def voicehandle (handle_voice handle_update : Handler) (s : BotState) (u : Update) : Outcome :=
  match authorized_check s u with
  | some e => (s, some e)
  | none =>
    let s1 : BotState := { s with _lastupdate := some u }
    match handle_voice s1 u with
    | (s2, none) => handle_update s2 u
    | (s2, some BotError.notImplemented) =>
      let s3 : BotState :=
        { s2 with delivered :=
            s2.delivered ++ [Delivery.reply u.eventId "This bot cannot process voice"] }
      handle_update s3 u
    | (s2, some e) =>
      match handle_update s2 u with
      | (s3, none) => (s3, some e)
      | (s3, some e2) => (s3, some e2)

/-- Errors raised by `TelegramBot.__init__` (bot.py lines 48-64) while
handling the configuration. -/
inductive InitError where
  /-- `Exception("Missing <key> from config")` (bot.py lines 58-60). -/
  | missingKey (key : String)
  /-- `ValueError` from `int(...)` while parsing `chat_ids` (bot.py line 62). -/
  | invalidChatIds
deriving DecidableEq, Repr

/-- The keys `__init__` requires, in the order it checks them
(bot.py line 58). -/
def requiredKeys : List String := ["bot_token", "chat_ids"]

/-- Membership test `x in self.config` on a loaded configuration, modelled
as a key-value list. -/
def hasKey (cfg : List (String × String)) (k : String) : Bool :=
  cfg.any (fun kv => kv.1 == k)

/-- The first required key absent from the configuration: the key whose
check raises in the `for x in ["bot_token", "chat_ids"]` loop. -/
def firstMissingKey (cfg : List (String × String)) : Option String :=
  requiredKeys.find? (fun k => !(hasKey cfg k))

/-- `[int(i.strip()) for i in config["chat_ids"].split(",")]`
(bot.py line 62); `none` models the `ValueError` from `int`. -/
def parseChatIds (raw : String) : Option (List Int) :=
  (raw.splitOn ",").mapM (fun t => t.trim.toInt?)

/-- The configuration-handling part of `TelegramBot.__init__` (bot.py lines
55-68): check the required keys in order, raising on the first missing one;
parse `chat_ids`; build the instance state (`_bot_init` builds the
application without opening a connection, then `_deamon` and `_started` are
set to `False` and `_lastupdate` to `None`). -/
def construct (cfg : List (String × String)) : Except InitError BotState :=
  match firstMissingKey cfg with
  | some k => Except.error (InitError.missingKey k)
  | none =>
    match parseChatIds ((cfg.lookup "chat_ids").getD "") with
    | none => Except.error InitError.invalidChatIds
    | some ids =>
      Except.ok { chat_ids := ids, only_authorized := true, _deamon := false,
                  _started := false, _lastupdate := none, queue := [],
                  delivered := [], connOpen := false, opens := 0, closes := 0 }

/-- What `TelegramBot.command` records about a method (bot.py lines 21-45):
the function name, the `args` usage hint, and the docstring. -/
structure CommandDef where
  name : String
  args : String
  doc : String
deriving DecidableEq, Repr

/-- The help entry the decorator builds for a command
(bot.py line 40). -/
def usageLine (c : CommandDef) : String :=
  "`" ++ c.name ++ " " ++ c.args ++ "` " ++ c.doc

/-- The class-level registry (bot.py lines 18-19): the parallel lists
`_command_registry` and `_command_usage`, populated at class-definition
time and shared by all instances. -/
structure Registry where
  command_registry : List CommandDef
  command_usage : List String
deriving DecidableEq, Repr

/-- `TelegramBot.command` (bot.py lines 21-45): append the function to
`_command_registry` and its help entry to `_command_usage`. -/
def command (reg : Registry) (c : CommandDef) : Registry :=
  { command_registry := reg.command_registry ++ [c],
    command_usage := reg.command_usage ++ [usageLine c] }

/-- The handler bindings `_bot_init` creates from the registry (bot.py
lines 124-132): one `CommandHandler` per registered command, plus the
`start` alias.  `_bot_init` reads the registry and never writes it. -/
def bot_init_handlers (reg : Registry) : List String :=
  reg.command_registry.map (fun c => c.name) ++ ["start"]

/-- Constructing one bot instance, as far as the class registry is
concerned: `__init__` and the `_bot_init` it calls only read the registry
(bot.py lines 48-64 and 107-136), producing handler bindings for the new
application. -/
def mkInstance (reg : Registry) : Registry × List String :=
  (reg, bot_init_handlers reg)

/-- Constructing `n` bot instances in sequence, threading the class
registry through. -/
def constructInstances : Nat → Registry → Registry
  | 0, reg => reg
  | n + 1, reg => constructInstances n (mkInstance reg).1

/-- The help text `TelegramBot.help` assembles (bot.py lines 145-153):
bot name, description, and the registered usage lines joined by
newlines; the method then sends it with `reply_markdown`. -/
def helptext (name description : String) (reg : Registry) : String :=
  name ++ "\n\n" ++ description ++ "\n\n" ++ String.intercalate "\n" reg.command_usage

/-- State of the legacy `TelegramBot` in `src/tg_bot.py`: its authorized
`chat_ids` and the send tasks it has created
(`application.create_task(...send_message...)`). -/
structure LegacyState where
  chat_ids : List Int
  tasks : List Delivery
deriving DecidableEq, Repr

/-- Legacy `TelegramBot._send_message` (tg_bot.py lines 96-99):
`assert chat_id in self.chat_ids, "unauthorised chat id"`, then create the
send task.  On assertion failure nothing is sent. -/
def legacy_send_message (s : LegacyState) (chat_id : Int) (message : String) :
    LegacyState × Option BotError :=
  if chat_id ∈ s.chat_ids then
    ({ s with tasks := s.tasks ++ [Delivery.push chat_id message] }, none)
  else
    (s, some (BotError.assertionError "unauthorised chat id"))

/-- A handler body that succeeds without acting, for concrete runs. -/
def hOk : Handler := fun s _ => (s, none)

/-- A handler body that raises, for concrete runs. -/
def hFail : Handler := fun s _ => (s, some BotError.handlerError)

/-- A handler body that sends one message through `_send_message`, the way
a typical command (for example `help`) replies. -/
def hReply : Handler := fun s _ => send_message s "helptext" none

/-- A restricted daemon-mode bot whose only authorized chat is `1`,
currently holding no pending update. -/
def sDaemon : BotState :=
  { chat_ids := [1], only_authorized := true, _deamon := true, _started := false,
    _lastupdate := none, queue := [], delivered := [], connOpen := false,
    opens := 0, closes := 0 }

/-- An update from the unauthorized chat `3` carrying a command. -/
def uStranger : Update := { chat_id := 3, eventId := 7, text := "/help" }

/-- An update from the authorized chat `1`, event number `42`. -/
def uAuth : Update := { chat_id := 1, eventId := 42, text := "hi" }

/-- A restricted standalone-mode bot with destination set `[1, 2]` and no
pending update. -/
def sStandalone : BotState :=
  { chat_ids := [1, 2], only_authorized := true, _deamon := false, _started := false,
    _lastupdate := none, queue := [], delivered := [], connOpen := false,
    opens := 0, closes := 0 }

/-- A daemon-mode bot with destination set `[1, 2]` currently handling
event `42`. -/
def sBound : BotState :=
  { chat_ids := [1, 2], only_authorized := true, _deamon := true, _started := false,
    _lastupdate := some uAuth, queue := [], delivered := [], connOpen := false,
    opens := 0, closes := 0 }

/-- A standalone bot whose connection is open with one push still queued. -/
def sOpenBatch : BotState :=
  { chat_ids := [1], only_authorized := true, _deamon := false, _started := true,
    _lastupdate := none, queue := [Delivery.push 1 "a"], delivered := [],
    connOpen := true, opens := 1, closes := 0 }

/-- Helper: opening the standalone connection does not change the
destination set. -/
theorem start_standalone_chat_ids (s : BotState) :
    (start_standalone s).chat_ids = s.chat_ids := by
  by_cases h : s._deamon = false ∧ s._started = false <;> simp [start_standalone, h]

/-- Helper: constructing bot instances never changes the class registry
(neither `__init__` nor `_bot_init` writes to it). -/
theorem constructInstances_eq (n : Nat) (reg : Registry) :
    constructInstances n reg = reg := by
  induction n with
  | zero => rfl
  | succ n ih => simpa [constructInstances, mkInstance] using ih

/-- C10: `_send_markdown` delegates to `_send_message` with the same
arguments, so for every state, message and optional destination the two
operations produce identical outcomes. -/
theorem send_markdown_refines_send_message :
    ∀ (s : BotState) (m : String) (c : Option Int),
      send_markdown s m c = send_message s m c :=
  fun _ _ _ => rfl

/-- C6: the standalone open path is idempotent: a second call without an
intervening close is a no-op (the `_started` guard fails), so the state is
unchanged and no second connection is opened. -/
theorem start_standalone_idempotent (s : BotState) :
    start_standalone (start_standalone s) = start_standalone s ∧
    (start_standalone (start_standalone s)).opens = (start_standalone s).opens := by
  have h1 : start_standalone (start_standalone s) = start_standalone s := by
    by_cases h : s._deamon = false ∧ s._started = false <;> simp [start_standalone, h]
  exact ⟨h1, by rw [h1]⟩

/-- C3: while running as daemon with a pending update for event `u`, every
`_send_message` call, whatever its explicit destination argument, is
delivered as a direct reply to `u`; two successive sends both reply to `u`
and neither queues a push. -/
theorem send_while_pending_replies (s : BotState) (u : Update) (m1 m2 : String)
    (c1 c2 : Option Int) (hd : s._deamon = true) (hl : s._lastupdate = some u) :
    (send_message s m1 c1).2 = none ∧
    (send_message s m1 c1).1.delivered = s.delivered ++ [Delivery.reply u.eventId m1] ∧
    (send_message s m1 c1).1.queue = s.queue ∧
    (send_message (send_message s m1 c1).1 m2 c2).2 = none ∧
    (send_message (send_message s m1 c1).1 m2 c2).1.delivered
      = s.delivered ++ [Delivery.reply u.eventId m1, Delivery.reply u.eventId m2] ∧
    (send_message (send_message s m1 c1).1 m2 c2).1.queue = s.queue := by
  simp [send_message, hl, hd]

/-- Witness for C3: in a daemon-mode bot handling event `42`, two sends
(the second even naming an explicit destination) both reply to event `42`. -/
theorem send_while_pending_replies_witness :
    (send_message (send_message sBound "a" none).1 "b" (some 2)).1.delivered
      = sBound.delivered ++ [Delivery.reply 42 "a", Delivery.reply 42 "b"] :=
  (send_while_pending_replies sBound uAuth "a" "b" none (some 2) rfl rfl).2.2.2.2.1

/-- C4: with no pending update, a send with an explicit destination queues
exactly one push to that destination, and a send without one queues one
push per entry of `chat_ids`; when `chat_ids` has no duplicates each
configured destination is pushed exactly once. -/
theorem send_no_pending_fanout (s : BotState) (m : String) (d : Int)
    (hl : s._lastupdate = none) :
    (send_message s m (some d)).2 = none ∧
    (send_message s m (some d)).1.queue
      = (start_standalone s).queue ++ [Delivery.push d m] ∧
    (send_message s m none).2 = none ∧
    (send_message s m none).1.queue
      = (start_standalone s).queue ++ s.chat_ids.map (fun c => Delivery.push c m) ∧
    (s.chat_ids.Nodup → ∀ c ∈ s.chat_ids,
      (s.chat_ids.map (fun c2 => Delivery.push c2 m)).count (Delivery.push c m) = 1) := by
  refine ⟨?_, ?_, ?_, ?_, ?_⟩
  · simp [send_message, hl]
  · simp [send_message, hl]
  · simp [send_message, hl]
  · simp [send_message, hl, start_standalone_chat_ids]
  · intro hnd c hc
    have hinj : Function.Injective (fun c2 : Int => Delivery.push c2 m) := by
      intro a b hab
      simpa using hab
    have h1 := List.count_map_of_injective s.chat_ids
      (fun c2 : Int => Delivery.push c2 m) hinj c
    have h2 := List.count_eq_one_of_mem hnd hc
    simpa [h2] using h1

/-- Witness for C4: a standalone bot with destinations `[1, 2]` and no
pending update fans `"ping"` out to both destinations. -/
theorem send_no_pending_fanout_witness :
    (send_message sStandalone "ping" none).1.queue
      = (start_standalone sStandalone).queue
        ++ sStandalone.chat_ids.map (fun c => Delivery.push c "ping") :=
  (send_no_pending_fanout sStandalone "ping" 0 rfl).2.2.2.1

/-- C1: the command dispatch path installed by `_bot_init` performs no
authorization check.  Concretely, in a restricted daemon-mode bot whose
destination set is `[1]`, a command event from the unauthorized chat `3`
would be rejected by `_authorized_check`, yet the command wrapper runs the
handler and a reply is delivered back to the stranger; the free-text path
`_msghandle`, by contrast, aborts with `PermissionError` before the handler
runs and delivers nothing. -/
theorem command_dispatch_bypasses_authorization :
    authorized_check sDaemon uStranger = some (BotError.permissionError 3) ∧
    command_msg hReply sDaemon uStranger
      = ({ sDaemon with delivered := [Delivery.reply 7 "helptext"] }, none) ∧
    msghandle hReply sDaemon uStranger = (sDaemon, some (BotError.permissionError 3)) := by
  decide

/-- Counterexample for C2: in `tg_bot/bot.py`, `_send_message` performs no
destination check: a send to chat `999`, which is not in the configured set
`[1, 2]`, raises nothing and queues a push to `999`. -/
theorem send_unauthorized_destination_counterexample :
    ¬ (999 : Int) ∈ sStandalone.chat_ids ∧
    (send_message sStandalone "x" (some 999)).2 = none ∧
    (send_message sStandalone "x" (some 999)).1.queue = [Delivery.push 999 "x"] := by
  decide

/-- C2 (amended): in the legacy `tg_bot.py` implementation, a send whose
destination is not in `chat_ids` fails on the
`assert chat_id in self.chat_ids` with message "unauthorised chat id" and
creates no send task. -/
theorem legacy_send_rejects_unauthorized (s : LegacyState) (c : Int) (m : String)
    (h : c ∉ s.chat_ids) :
    legacy_send_message s c m
      = (s, some (BotError.assertionError "unauthorised chat id")) := by
  simp [legacy_send_message, h]

/-- Witness for the amended C2: the legacy bot with destinations `[1, 2]`
rejects a send to `999` and its task list stays empty. -/
theorem legacy_send_rejects_unauthorized_witness :
    legacy_send_message { chat_ids := [1, 2], tasks := [] } 999 "x"
      = ({ chat_ids := [1, 2], tasks := [] },
         some (BotError.assertionError "unauthorised chat id")) :=
  legacy_send_rejects_unauthorized { chat_ids := [1, 2], tasks := [] } 999 "x" (by decide)

/-- Counterexample for C5: clearing of `_lastupdate` is not unconditional.
When the handler raises, `_msghandle` propagates the exception with the
pending update still set; and the voice path leaves it set even when every
handler succeeds. -/
theorem pending_context_leak_counterexample :
    (msghandle hFail sDaemon uAuth).1._lastupdate = some uAuth ∧
    (voicehandle hOk hOk sDaemon uAuth).1._lastupdate = some uAuth := by
  decide

/-- C5 (amended): on the free-text and command dispatch paths the pending
update is set to the current event for the handler invocation and cleared
when the handler returns normally; when the handler raises, the dispatch
returns the handler outcome unchanged, without clearing the pending
update. -/
theorem pending_context_cleared_on_success (h : Handler) (s : BotState) (u : Update) :
    (authorized_check s u = none →
      (h { s with _lastupdate := some u } u).2 = none →
      (msghandle h s u).2 = none ∧ (msghandle h s u).1._lastupdate = none) ∧
    (∀ s2 e, authorized_check s u = none →
      h { s with _lastupdate := some u } u = (s2, some e) →
      msghandle h s u = (s2, some e)) ∧
    ((h { s with _lastupdate := some u } u).2 = none →
      (command_msg h s u).2 = none ∧ (command_msg h s u).1._lastupdate = none) ∧
    (∀ s2 e, h { s with _lastupdate := some u } u = (s2, some e) →
      command_msg h s u = (s2, some e)) := by
  refine ⟨?_, ?_, ?_, ?_⟩
  · intro ha hs
    rcases hh : h { s with _lastupdate := some u } u with ⟨s2, e⟩
    rw [hh] at hs
    simp only at hs
    subst hs
    simp [msghandle, ha, hh]
  · intro s2 e ha hh
    simp [msghandle, ha, hh]
  · intro hs
    rcases hh : h { s with _lastupdate := some u } u with ⟨s2, e⟩
    rw [hh] at hs
    simp only at hs
    subst hs
    simp [command_msg, hh]
  · intro s2 e hh
    simp [command_msg, hh]

/-- Witness for the amended C5: with a handler that returns normally, a
free-text dispatch ends with no exception and a cleared pending update. -/
theorem pending_context_cleared_on_success_witness :
    (msghandle hOk sDaemon uAuth).2 = none ∧
    (msghandle hOk sDaemon uAuth).1._lastupdate = none :=
  (pending_context_cleared_on_success hOk sDaemon uAuth).1 (by decide) rfl

/-- Counterexample for C7: after `batch_send` on an open standalone
connection the queue is flushed and the connection closed, but `_started`
remains set, so the router is not back in the idle state: a subsequent
open attempt is a no-op that reopens nothing. -/
theorem batch_send_not_idle_counterexample :
    (batch_send sOpenBatch)._started = true ∧
    (batch_send sOpenBatch).connOpen = false ∧
    (batch_send sOpenBatch).delivered = [Delivery.push 1 "a"] ∧
    (batch_send sOpenBatch).queue = [] ∧
    start_standalone (batch_send sOpenBatch) = batch_send sOpenBatch ∧
    (start_standalone (batch_send sOpenBatch)).opens = 1 := by
  decide

/-- C7 (amended): `batch_send` on a started bot flushes all queued sends
and tears the connection down, but `_started` is never reset, so the router
does not return to the idle state and a subsequent standalone open is a
no-op instead of reacquiring the connection. -/
theorem batch_send_flushes_but_stays_started (s : BotState) (h : s._started = true) :
    batch_send s
      = { s with delivered := s.delivered ++ s.queue, queue := [],
                 connOpen := false, closes := s.closes + 1 } ∧
    (batch_send s)._started = true ∧
    start_standalone (batch_send s) = batch_send s := by
  refine ⟨?_, ?_, ?_⟩ <;> simp [batch_send, stop_standalone, start_standalone, h]

/-- Witness for the amended C7: after flushing the open batch, the bot is
still flagged as started. -/
theorem batch_send_flushes_but_stays_started_witness :
    (batch_send sOpenBatch)._started = true :=
  (batch_send_flushes_but_stays_started sOpenBatch rfl).2.1

/-- C8: when the configuration lacks `bot_token` or `chat_ids`,
construction fails naming the first missing key in the order the
constructor checks them, and no bot state is ever produced. -/
theorem construct_missing_key (cfg : List (String × String))
    (h : hasKey cfg "bot_token" = false ∨ hasKey cfg "chat_ids" = false) :
    construct cfg
      = Except.error (InitError.missingKey
          (if hasKey cfg "bot_token" = true then "chat_ids" else "bot_token")) ∧
    ∀ st : BotState, construct cfg ≠ Except.ok st := by
  have hfm : firstMissingKey cfg
      = some (if hasKey cfg "bot_token" = true then "chat_ids" else "bot_token") := by
    rcases h with h1 | h1 <;>
      by_cases h2 : hasKey cfg "bot_token" = true <;>
      by_cases h3 : hasKey cfg "chat_ids" = true <;>
      simp_all [firstMissingKey, requiredKeys, List.find?]
  constructor
  · simp [construct, hfm]
  · intro st
    simp [construct, hfm]

/-- Witness for C8: a configuration providing only `chat_ids` fails with
the missing key `bot_token`. -/
theorem construct_missing_key_witness :
    construct [("chat_ids", "1,2")] = Except.error (InitError.missingKey "bot_token") := by
  have e : hasKey [("chat_ids", "1,2")] "bot_token" = false := by decide
  have h := (construct_missing_key [("chat_ids", "1,2")] (Or.inl e)).1
  rw [e] at h
  simpa using h

/-- C9: a command whose help entry is not yet in the usage list appears in
it exactly once after registration, its entry is the verbatim assembly of
name, hint and docstring, and constructing any number of bot instances
leaves the registry, and hence the help entries, unchanged. -/
theorem help_entry_unique (reg : Registry) (c : CommandDef) (n : Nat)
    (hnew : reg.command_usage.count (usageLine c) = 0) :
    (constructInstances n (command reg c)).command_usage.count (usageLine c) = 1 ∧
    usageLine c ∈ (constructInstances n (command reg c)).command_usage ∧
    usageLine c = "`" ++ c.name ++ " " ++ c.args ++ "` " ++ c.doc := by
  rw [constructInstances_eq]
  refine ⟨?_, ?_, rfl⟩
  · simp [command, List.count_append, List.count_cons, hnew]
  · simp [command]

/-- Witness for C9: after registering `foo` with hint and docstring on an
empty registry, three instance constructions later its help entry count is
still one. -/
theorem help_entry_unique_witness :
    (constructInstances 3 (command { command_registry := [], command_usage := [] }
        { name := "foo", args := "<BAR>", doc := "foos the bar" })).command_usage.count
      (usageLine { name := "foo", args := "<BAR>", doc := "foos the bar" }) = 1 :=
  (help_entry_unique { command_registry := [], command_usage := [] }
    { name := "foo", args := "<BAR>", doc := "foos the bar" } 3 rfl).1
